import Mathlib

/-!
Verification of the microphone-loopback engine of flx4control
(src/flx4control/mic_loopback.py).

The Python class `MicLoopback` holds scalar parameters (`_volume`,
`_muted`, `_input_device`, `_output_device`) and an optional live stream
`_stream`.  Every public mutator runs under one lock and calls
`_sync_stream`, which starts or stops the stream so that it runs exactly
when `volume > 0.001 and not muted`.

The embedding below models floats by rationals (the code only clamps,
compares and multiplies them), the stream handle by the pair of device
names stored at the moment the stream was started, and the outcome of a
stream-start attempt (the `sd.Stream(...).start()` call, which the code
wraps in `try/except`) by a boolean `ok` supplied by the environment.
`starts` counts start attempts and `stops` counts stops of a live
stream, mirroring the calls the code makes into the audio backend.
All operations are total functions: the Python code swallows every
exception, so no error ever propagates to the caller.
-/

namespace Flx4

/-- State of `MicLoopback`: the fields set in `__init__` plus two event
counters for start attempts and stream stops. -/
structure LoopState where
  volume : ℚ
  muted : Bool
  input_device : Option String
  output_device : Option String
  stream : Option (Option String × Option String)
  starts : Nat
  stops : Nat
  deriving Repr, DecidableEq

/-- `MicLoopback.__init__`: volume 0, unmuted, default devices, no stream. -/
def init : LoopState :=
  { volume := 0, muted := false, input_device := none, output_device := none,
    stream := none, starts := 0, stops := 0 }

/-- `should_run = self._volume > 0.001 and not self._muted` (first line of
`MicLoopback._sync_stream`). -/
def should_run (s : LoopState) : Bool :=
  decide ((1 : ℚ)/1000 < s.volume) && !s.muted

/-- `MicLoopback._stop_stream`: if a stream exists, stop and close it
(teardown errors swallowed) and clear the handle; otherwise do nothing. -/
def stop_stream (s : LoopState) : LoopState :=
  match s.stream with
  | none => s
  | some _ => { s with stream := none, stops := s.stops + 1 }

/-- `MicLoopback._start_stream`: attempt to open and start a duplex
stream bound to the currently stored device names; on failure
(`except Exception`) print a line and leave `_stream = None`. -/
def start_stream (ok : Bool) (s : LoopState) : LoopState :=
  if ok then
    { s with stream := some (s.input_device, s.output_device),
             starts := s.starts + 1 }
  else
    { s with stream := none, starts := s.starts + 1 }

/-- `MicLoopback._sync_stream`: start when the run predicate holds and no
stream exists, stop when it fails and a stream exists, otherwise no-op. -/
def sync_stream (ok : Bool) (s : LoopState) : LoopState :=
  if should_run s && s.stream.isNone then start_stream ok s
  else if !should_run s && s.stream.isSome then stop_stream s
  else s

/-- `MicLoopback.set_monitor_volume`: clamp to [0,1], store, re-sync. -/
def set_monitor_volume (ok : Bool) (v : ℚ) (s : LoopState) : LoopState :=
  sync_stream ok { s with volume := max 0 (min 1 v) }

/-- `MicLoopback.set_muted`: store the flag, re-sync. -/
def set_muted (ok : Bool) (m : Bool) (s : LoopState) : LoopState :=
  sync_stream ok { s with muted := m }

/-- `MicLoopback.set_devices`: store both names; only when one changed
and a stream is live, stop it and re-sync. -/
def set_devices (ok : Bool) (i o : Option String) (s : LoopState) : LoopState :=
  let changed := s.input_device ≠ i ∨ s.output_device ≠ o
  let s1 := { s with input_device := i, output_device := o }
  if changed ∧ s.stream.isSome then sync_stream ok (stop_stream s1)
  else s1

/-- `MicLoopback.stop`: unconditionally release any live stream. -/
def stop (s : LoopState) : LoopState := stop_stream s

/-- A control-context call to one of the four public operations, tagged
with the environment's answer `ok` to any start attempt it makes. -/
inductive Op where
  | vol (v : ℚ) (ok : Bool)
  | mute (m : Bool) (ok : Bool)
  | devs (i o : Option String) (ok : Bool)
  | stop
  deriving Repr, DecidableEq

/-- One public call applied to the state. -/
def step (s : LoopState) : Op → LoopState
  | .vol v ok => set_monitor_volume ok v s
  | .mute m ok => set_muted ok m s
  | .devs i o ok => set_devices ok i o s
  | .stop => stop s

/-- A sequence of public calls applied in order. -/
def run (s : LoopState) : List Op → LoopState
  | [] => s
  | op :: ops => run (step s op) ops

/-- The run-predicate invariant of the spec: the stream handle is present
exactly when `volume > 0.001` and not muted. -/
def StreamInv (s : LoopState) : Prop :=
  s.stream.isSome = should_run s

/-- Calls covered by the C1 invariant: `set_monitor_volume` and
`set_muted`, with every start attempt succeeding. -/
def volMuteOk : Op → Bool
  | .vol _ ok => ok
  | .mute _ ok => ok
  | _ => false

/-- Calls that are not `set_monitor_volume`/`set_muted`: a `set_devices`
call (any arguments) or a `stop` call. -/
def noVolMute : Op → Bool
  | .devs _ _ _ => true
  | .stop => true
  | _ => false

/-! Device resolution (`MicLoopback._device_index`).  A device as
returned by `sounddevice.query_devices()`: its name and channel
capabilities. -/

/-- One entry of the enumerated device list. -/
structure Device where
  name : String
  max_input_channels : Nat
  max_output_channels : Nat
  deriving Repr, DecidableEq

/-- Which side a device is resolved for (`kind` argument). -/
inductive Kind where
  | input
  | output
  deriving Repr, DecidableEq

/-- Python's `.lower()` on a string, as its list of lowered characters. -/
def lowerStr (s : String) : List Char :=
  s.data.map Char.toLower

/-- Whether `needle` occurs at the head of `hay`. -/
def startsWithSeq : List Char → List Char → Bool
  | [], _ => true
  | _ :: _, [] => false
  | a :: as, b :: bs => a == b && startsWithSeq as bs

/-- Python's substring test `needle in hay`. -/
def containsSeq (needle : List Char) : List Char → Bool
  | [] => needle.isEmpty
  | c :: cs => startsWithSeq needle (c :: cs) || containsSeq needle cs

/-- The capability filter of `_device_index`: `max_input_channels > 0`
for the input side, `max_output_channels > 0` for the output side. -/
def capOk : Kind → Device → Bool
  | .input, d => decide (0 < d.max_input_channels)
  | .output, d => decide (0 < d.max_output_channels)

/-- The loop-body test of `_device_index`: case-insensitive substring
match on the name and the capability filter for the requested side. -/
def devMatch (name : String) (k : Kind) (d : Device) : Bool :=
  containsSeq (lowerStr name) (lowerStr d.name) && capOk k d

/-- The enumeration loop of `_device_index`, carrying the index of the
current entry: returns the index of the first match. -/
def device_index_from (name : String) (k : Kind) : Nat → List Device → Option Nat
  | _, [] => none
  | i, d :: ds =>
    if devMatch name k d then some i else device_index_from name k (i+1) ds

/-- `MicLoopback._device_index`: `None` for the empty name (`if not
name`), otherwise the first enumerated device matching name and
capability; `None` (platform default) when nothing matches. -/
def device_index (name : String) (k : Kind) (devs : List Device) : Option Nat :=
  if name = "" then none else device_index_from name k 0 devs

/-- Placeholder device used as the default of positional lookups in
statements about the enumerated list. -/
def defaultDevice : Device :=
  { name := "", max_input_channels := 0, max_output_channels := 0 }

/-! The real-time audio callback. -/

/-- `vol = 0.0 if self._muted else self._volume` in the callback. -/
def gain (muted : Bool) (volume : ℚ) : ℚ :=
  if muted then 0 else volume

/-- `indata.mean(axis=1)` for one frame: the average of its channels. -/
def frameMean (frame : List ℚ) : ℚ :=
  frame.sum / frame.length

/-- The callback body: per frame, average the input channels, scale by
the gain, and broadcast the mono value to every output channel
(`outdata[:] = np.broadcast_to(mono, outdata.shape)`). -/
def callback (muted : Bool) (volume : ℚ) (outChannels : Nat)
    (indata : List (List ℚ)) : List (List ℚ) :=
  indata.map (fun frame => List.replicate outChannels (frameMean frame * gain muted volume))

/-! The callback's reads of `self._muted` and `self._volume` are two
separate attribute reads taken without the lock, so any number of
control-context calls (which are serialized by the lock) may complete
between them.  We model instants by the number of control calls already
applied. -/

/-- The state after the first `t` control calls of `ops` (saturating past
the end of the sequence). -/
def stateAfter (s : LoopState) (ops : List Op) (t : Nat) : LoopState :=
  run s (ops.take t)

/-- The gain a consistent snapshot of one single state would produce. -/
def gainState (s : LoopState) : ℚ :=
  gain s.muted s.volume

/-- The gain the callback computes when its read of `_muted` happens at
instant `t1` and its read of `_volume` at instant `t2`. -/
def readGain (s : LoopState) (ops : List Op) (t1 t2 : Nat) : ℚ :=
  if (stateAfter s ops t1).muted then 0 else (stateAfter s ops t2).volume

/-- A concrete running state used by witnesses: volume 1/2, unmuted,
default devices, stream started once. -/
def runningS : LoopState :=
  { volume := 1/2, muted := false, input_device := none, output_device := none,
    stream := some (none, none), starts := 1, stops := 0 }

end Flx4

namespace Flx4

/-! Basic frame lemmas: which fields each internal helper leaves alone. -/

theorem start_stream_volume (ok : Bool) (s : LoopState) :
    (start_stream ok s).volume = s.volume := by
  unfold start_stream; split <;> rfl

theorem start_stream_muted (ok : Bool) (s : LoopState) :
    (start_stream ok s).muted = s.muted := by
  unfold start_stream; split <;> rfl

theorem start_stream_input (ok : Bool) (s : LoopState) :
    (start_stream ok s).input_device = s.input_device := by
  unfold start_stream; split <;> rfl

theorem start_stream_output (ok : Bool) (s : LoopState) :
    (start_stream ok s).output_device = s.output_device := by
  unfold start_stream; split <;> rfl

theorem stop_stream_volume (s : LoopState) : (stop_stream s).volume = s.volume := by
  unfold stop_stream; split <;> rfl

theorem stop_stream_muted (s : LoopState) : (stop_stream s).muted = s.muted := by
  unfold stop_stream; split <;> rfl

theorem stop_stream_input (s : LoopState) :
    (stop_stream s).input_device = s.input_device := by
  unfold stop_stream; split <;> rfl

theorem stop_stream_output (s : LoopState) :
    (stop_stream s).output_device = s.output_device := by
  unfold stop_stream; split <;> rfl

theorem stop_stream_stream (s : LoopState) : (stop_stream s).stream = none := by
  cases h : s.stream <;> simp [stop_stream, h]

theorem sync_stream_volume (ok : Bool) (s : LoopState) :
    (sync_stream ok s).volume = s.volume := by
  unfold sync_stream
  split
  · exact start_stream_volume ok s
  · split
    · exact stop_stream_volume s
    · rfl

theorem sync_stream_muted (ok : Bool) (s : LoopState) :
    (sync_stream ok s).muted = s.muted := by
  unfold sync_stream
  split
  · exact start_stream_muted ok s
  · split
    · exact stop_stream_muted s
    · rfl

theorem sync_stream_input (ok : Bool) (s : LoopState) :
    (sync_stream ok s).input_device = s.input_device := by
  unfold sync_stream
  split
  · exact start_stream_input ok s
  · split
    · exact stop_stream_input s
    · rfl

theorem sync_stream_output (ok : Bool) (s : LoopState) :
    (sync_stream ok s).output_device = s.output_device := by
  unfold sync_stream
  split
  · exact start_stream_output ok s
  · split
    · exact stop_stream_output s
    · rfl

theorem should_run_sync (ok : Bool) (s : LoopState) :
    should_run (sync_stream ok s) = should_run s := by
  unfold should_run
  rw [sync_stream_volume, sync_stream_muted]

/-- After `_sync_stream` with a succeeding start, the stream is present
exactly when the run predicate holds — from any prior state. -/
theorem sync_true_inv (s : LoopState) : StreamInv (sync_stream true s) := by
  unfold StreamInv
  rw [should_run_sync]
  unfold sync_stream
  cases hr : should_run s <;> cases hst : s.stream <;>
    simp [hr, hst, start_stream, stop_stream]

theorem set_monitor_volume_inv (v : ℚ) (s : LoopState) :
    StreamInv (set_monitor_volume true v s) :=
  sync_true_inv _

theorem set_muted_inv (m : Bool) (s : LoopState) :
    StreamInv (set_muted true m s) :=
  sync_true_inv _

theorem init_inv : StreamInv init := by
  unfold StreamInv should_run init
  norm_num

end Flx4

namespace Flx4

theorem set_muted_volume (ok : Bool) (m : Bool) (s : LoopState) :
    (set_muted ok m s).volume = s.volume := by
  rw [set_muted, sync_stream_volume]

theorem set_devices_volume (ok : Bool) (i o : Option String) (s : LoopState) :
    (set_devices ok i o s).volume = s.volume := by
  unfold set_devices
  dsimp only
  split
  · rw [sync_stream_volume, stop_stream_volume]
  · rfl

theorem stop_volume (s : LoopState) : (stop s).volume = s.volume :=
  stop_stream_volume s

/-- Evaluation of the canonical running state used by witnesses: raising
the volume to 1/2 from the initial state starts the stream. -/
theorem run_vol_half_eq :
    run init [Op.vol (1/2) true] =
      { volume := 1/2, muted := false, input_device := none, output_device := none,
        stream := some (none, none), starts := 1, stops := 0 } := by
  show sync_stream true { init with volume := max 0 (min 1 (1/2)) } = _
  have hv : max 0 (min 1 ((1:ℚ)/2)) = 1/2 := by norm_num
  rw [sync_stream, hv]
  norm_num [should_run, init, start_stream]

end Flx4

namespace Flx4

/-- C1: after any sequence of `set_monitor_volume` and `set_muted` calls
from the initial state, with every attempted stream start succeeding,
the stream handle is present iff the stored monitor volume exceeds
0.001 and muted is false (the run predicate is re-established by
`_sync_stream` after every such mutation). -/
theorem c1_run_invariant (ops : List Op) (h : ∀ op ∈ ops, volMuteOk op = true) :
    StreamInv (run init ops) := by
  have main : ∀ (ops : List Op) (s : LoopState), StreamInv s →
      (∀ op ∈ ops, volMuteOk op = true) → StreamInv (run s ops) := by
    intro ops
    induction ops with
    | nil => intro s hs _; exact hs
    | cons op rest ih =>
      intro s hs hall
      have hop := hall op (List.mem_cons_self op rest)
      have hrest : ∀ o ∈ rest, volMuteOk o = true :=
        fun o ho => hall o (List.mem_cons_of_mem _ ho)
      cases op with
      | vol v ok =>
        have hk : ok = true := by simpa [volMuteOk] using hop
        subst hk
        exact ih _ (set_monitor_volume_inv v s) hrest
      | mute m ok =>
        have hk : ok = true := by simpa [volMuteOk] using hop
        subst hk
        exact ih _ (set_muted_inv m s) hrest
      | devs i o ok => simp [volMuteOk] at hop
      | stop => simp [volMuteOk] at hop
  exact main ops init init_inv h

/-- Witness for C1 at the concrete call sequence
`set_monitor_volume(0.5); set_muted(true)`. -/
theorem c1_run_invariant_witness :
    (∀ op ∈ [Op.vol (1/2) true, Op.mute true true], volMuteOk op = true) ∧
      StreamInv (run init [Op.vol (1/2) true, Op.mute true true]) := by
  have hmem : ∀ op ∈ [Op.vol (1/2) true, Op.mute true true], volMuteOk op = true := by
    intro op hop
    rcases List.mem_cons.mp hop with h | hop
    · subst h; rfl
    rcases List.mem_cons.mp hop with h | hop
    · subst h; rfl
    · simp at hop
  exact ⟨hmem, c1_run_invariant _ hmem⟩

/-- C7: `set_monitor_volume` stores exactly `clamp(volume, 0, 1)`, and
from the initial state the stored volume stays inside [0, 1] after any
sequence of public calls. -/
theorem c7_volume_clamped :
    (∀ (ok : Bool) (v : ℚ) (s : LoopState),
        (set_monitor_volume ok v s).volume = max 0 (min 1 v)) ∧
    (∀ ops : List Op, 0 ≤ (run init ops).volume ∧ (run init ops).volume ≤ 1) := by
  constructor
  · intro ok v s
    rw [set_monitor_volume, sync_stream_volume]
  · have main : ∀ (ops : List Op) (s : LoopState), 0 ≤ s.volume → s.volume ≤ 1 →
        0 ≤ (run s ops).volume ∧ (run s ops).volume ≤ 1 := by
      intro ops
      induction ops with
      | nil => intro s h0 h1; exact ⟨h0, h1⟩
      | cons op rest ih =>
        intro s h0 h1
        cases op with
        | vol v ok =>
          refine ih _ ?_ ?_
          · rw [show step s (.vol v ok) = set_monitor_volume ok v s from rfl,
              set_monitor_volume, sync_stream_volume]
            exact le_max_left 0 _
          · rw [show step s (.vol v ok) = set_monitor_volume ok v s from rfl,
              set_monitor_volume, sync_stream_volume]
            exact max_le (by norm_num) (min_le_left 1 v)
        | mute m ok =>
          refine ih _ ?_ ?_ <;>
            rw [show step s (.mute m ok) = set_muted ok m s from rfl, set_muted_volume] <;>
            assumption
        | devs i o ok =>
          refine ih _ ?_ ?_ <;>
            rw [show step s (.devs i o ok) = set_devices ok i o s from rfl,
              set_devices_volume] <;>
            assumption
        | stop =>
          refine ih _ ?_ ?_ <;>
            rw [show step s .stop = stop s from rfl, stop_volume] <;>
            assumption
    intro ops
    exact main ops init (by norm_num [init]) (by norm_num [init])

/-- C8: `stop()` is idempotent — calling it twice equals calling it once
(same whole state, counters included), the result has no stream, and all
configuration fields are unchanged.  Both calls are total functions, so
neither can raise. -/
theorem c8_stop_idempotent (s : LoopState) :
    stop (stop s) = stop s ∧ (stop s).stream = none ∧
    (stop s).volume = s.volume ∧ (stop s).muted = s.muted ∧
    (stop s).input_device = s.input_device ∧
    (stop s).output_device = s.output_device := by
  refine ⟨?_, stop_stream_stream s, stop_stream_volume s, stop_stream_muted s,
    stop_stream_input s, stop_stream_output s⟩
  show stop_stream (stop_stream s) = stop_stream s
  cases h : s.stream <;> simp [stop_stream, h]

/-- C9: `set_devices` with both identifiers equal to the stored values
is a complete no-op: the state, stream handle included, is unchanged. -/
theorem c9_set_devices_noop (ok : Bool) (s : LoopState) :
    set_devices ok s.input_device s.output_device s = s := by
  cases s
  simp [set_devices]

/-- C10: after `stop()`, the stream stays absent across any further
`set_devices` (any arguments, equal or not) and `stop` calls; only a
`set_monitor_volume` or `set_muted` call can start it again. -/
theorem c10_stopped_stays_stopped (s : LoopState) (ops : List Op)
    (h : ∀ op ∈ ops, noVolMute op = true) :
    (run (stop s) ops).stream = none := by
  have main : ∀ (ops : List Op) (s : LoopState), s.stream = none →
      (∀ op ∈ ops, noVolMute op = true) → (run s ops).stream = none := by
    intro ops
    induction ops with
    | nil => intro s hs _; exact hs
    | cons op rest ih =>
      intro s hs hall
      have hop := hall op (List.mem_cons_self op rest)
      have hrest : ∀ o ∈ rest, noVolMute o = true :=
        fun o ho => hall o (List.mem_cons_of_mem _ ho)
      cases op with
      | vol v ok => simp [noVolMute] at hop
      | mute m ok => simp [noVolMute] at hop
      | devs i o ok =>
        refine ih _ ?_ hrest
        show (set_devices ok i o s).stream = none
        unfold set_devices
        dsimp only
        split
        · next hcond => rw [hs] at hcond; simp at hcond
        · exact hs
      | stop =>
        refine ih _ ?_ hrest
        exact stop_stream_stream s
  exact main ops (stop s) (stop_stream_stream s) h

/-- Witness for C10: stop a running stream (predicate still true), then a
same-identifier `set_devices`, a different-identifier `set_devices` and a
second `stop`; the stream stays absent throughout. -/
theorem c10_stopped_stays_stopped_witness :
    should_run (run init [Op.vol (1/2) true]) = true ∧
    (∀ op ∈ [Op.devs none none true, Op.devs (some "usb") none true, Op.stop],
        noVolMute op = true) ∧
    (run (stop (run init [Op.vol (1/2) true]))
        [Op.devs none none true, Op.devs (some "usb") none true, Op.stop]).stream = none := by
  have hmem : ∀ op ∈ [Op.devs none none true, Op.devs (some "usb") none true, Op.stop],
      noVolMute op = true := by
    intro op hop
    rcases List.mem_cons.mp hop with h | hop
    · subst h; rfl
    rcases List.mem_cons.mp hop with h | hop
    · subst h; rfl
    rcases List.mem_cons.mp hop with h | hop
    · subst h; rfl
    · simp at hop
  refine ⟨?_, hmem, c10_stopped_stays_stopped _ _ hmem⟩
  rw [run_vol_half_eq]
  norm_num [should_run]

end Flx4

namespace Flx4

theorem set_devices_changed_eq (ok : Bool) (i o : Option String) (s : LoopState)
    (hs : s.stream.isSome = true) (hch : s.input_device ≠ i ∨ s.output_device ≠ o) :
    set_devices ok i o s =
      sync_stream ok (stop_stream { s with input_device := i, output_device := o }) := by
  unfold set_devices
  dsimp only
  rw [if_pos ⟨hch, hs⟩]

theorem stop_stream_some_eq (s : LoopState) (p : Option String × Option String)
    (hp : s.stream = some p) :
    stop_stream s = { s with stream := none, stops := s.stops + 1 } := by
  simp [stop_stream, hp]

theorem sync_stream_none_eq (ok : Bool) (s : LoopState) (hs : s.stream = none) :
    sync_stream ok s = if should_run s then start_stream ok s else s := by
  unfold sync_stream
  rw [hs]
  cases hr : should_run s <;> simp [hr]

theorem sync_false_stream_none (s : LoopState) (hs : s.stream = none) :
    (sync_stream false s).stream = none := by
  rw [sync_stream_none_eq false s hs]
  split
  · simp [start_stream]
  · exact hs

theorem set_devices_stream_none (ok : Bool) (i o : Option String) (s : LoopState)
    (hs : s.stream = none) : (set_devices ok i o s).stream = none := by
  unfold set_devices
  dsimp only
  split
  · next hc => rw [hs] at hc; simp at hc
  · exact hs

/-- Evaluation of a failed start from the initial state: raising the
volume to 1/2 while the backend rejects the start attempt. -/
theorem fail_vol_half_eq :
    set_monitor_volume false (1/2) init =
      { volume := 1/2, muted := false, input_device := none, output_device := none,
        stream := none, starts := 1, stops := 0 } := by
  show sync_stream false { init with volume := max 0 (min 1 (1/2)) } = _
  have hv : max 0 (min 1 ((1:ℚ)/2)) = 1/2 := by norm_num
  rw [sync_stream, hv]
  norm_num [should_run, init, start_stream]

/-- Counterexample for C3 as stated: after a failed start (volume 1/2,
run predicate true, stream absent), a subsequent `set_devices` with a
different input identifier does not retry the start — the stream stays
absent and no new start attempt is made — because `set_devices` only
re-syncs when a stream is live. -/
theorem c3_counterexample :
    should_run (set_monitor_volume false (1/2) init) = true ∧
    (set_devices true (some "mic") none (set_monitor_volume false (1/2) init)).stream = none ∧
    (set_devices true (some "mic") none (set_monitor_volume false (1/2) init)).starts =
      (set_monitor_volume false (1/2) init).starts := by
  rw [fail_vol_half_eq]
  refine ⟨by norm_num [should_run], ?_, ?_⟩ <;> simp [set_devices]

/-- C3 (amended): a failing stream start is swallowed (every operation is
a total function, so no exception reaches the caller) and leaves the
engine not running; a subsequent `set_monitor_volume` or `set_muted`
re-evaluates the run predicate and, when every start attempt succeeds,
leaves the stream present exactly when the predicate is true; a
subsequent `set_devices`, however, never retries while the stream is
absent. -/
theorem c3_failed_start_recovery (s : LoopState) (v : ℚ) (m : Bool)
    (i o : Option String) (ok : Bool) (h : s.stream = none) :
    (set_monitor_volume false v s).stream = none ∧
    (set_muted false m s).stream = none ∧
    (set_devices ok i o s).stream = none ∧
    (set_monitor_volume true v s).stream.isSome = should_run (set_monitor_volume true v s) ∧
    (set_muted true m s).stream.isSome = should_run (set_muted true m s) := by
  refine ⟨?_, ?_, set_devices_stream_none ok i o s h, set_monitor_volume_inv v s,
    set_muted_inv m s⟩
  · exact sync_false_stream_none _ h
  · exact sync_false_stream_none _ h

/-- Witness for the amended C3 at the initial state with volume 1/2. -/
theorem c3_failed_start_recovery_witness :
    (set_monitor_volume false (1/2) init).stream = none ∧
    (set_muted false true init).stream = none ∧
    (set_devices true (some "a") none init).stream = none ∧
    (set_monitor_volume true (1/2) init).stream.isSome =
      should_run (set_monitor_volume true (1/2) init) ∧
    (set_muted true true init).stream.isSome = should_run (set_muted true true init) :=
  c3_failed_start_recovery init (1/2) true (some "a") none true rfl

/-- C6: while a stream is running, `set_devices` with a changed input or
output identifier performs exactly one stop, stores the new identifiers,
then performs exactly one start attempt when the run predicate holds
(and none otherwise); a successful restart binds the new identifiers. -/
theorem c6_restart_on_change (ok : Bool) (i o : Option String) (s : LoopState)
    (hs : s.stream.isSome = true)
    (hch : s.input_device ≠ i ∨ s.output_device ≠ o) :
    (set_devices ok i o s).stops = s.stops + 1 ∧
    (set_devices ok i o s).starts =
      s.starts + (if should_run s = true then 1 else 0) ∧
    (set_devices ok i o s).input_device = i ∧
    (set_devices ok i o s).output_device = o ∧
    (set_devices ok i o s).stream =
      (if should_run s = true ∧ ok = true then some (i, o) else none) := by
  obtain ⟨p, hp⟩ := Option.isSome_iff_exists.mp hs
  rw [set_devices_changed_eq ok i o s hs hch,
    stop_stream_some_eq _ p (by exact hp), sync_stream_none_eq _ _ rfl]
  have hcong : should_run { s with input_device := i, output_device := o, stream := none, stops := s.stops + 1 } = should_run s := rfl
  rw [hcong]
  cases hr : should_run s <;> cases ok <;> simp [hr, start_stream]

end Flx4

namespace Flx4

/-- Witness for C6: a running stream (volume 1/2, default devices) and a
`set_devices` call switching the input to "usb": one stop, one start,
new identifiers stored and bound by the restarted stream. -/
theorem c6_restart_on_change_witness :
    runningS.stream.isSome = true ∧
    (runningS.input_device ≠ some "usb" ∨ runningS.output_device ≠ none) ∧
    (set_devices true (some "usb") none runningS).stops = runningS.stops + 1 ∧
    (set_devices true (some "usb") none runningS).starts =
      runningS.starts + (if should_run runningS = true then 1 else 0) ∧
    (set_devices true (some "usb") none runningS).input_device = some "usb" ∧
    (set_devices true (some "usb") none runningS).output_device = none ∧
    (set_devices true (some "usb") none runningS).stream =
      (if should_run runningS = true ∧ true = true then some (some "usb", none) else none) := by
  have h1 : runningS.stream.isSome = true := rfl
  have h2 : runningS.input_device ≠ some "usb" ∨ runningS.output_device ≠ none :=
    Or.inl (by simp [runningS])
  obtain ⟨a, b, c, d, e⟩ := c6_restart_on_change true (some "usb") none runningS h1 h2
  exact ⟨h1, h2, a, b, c, d, e⟩

end Flx4

namespace Flx4

/-- First-match characterization of the enumeration loop of
`_device_index`, for an arbitrary starting index `n`. -/
theorem device_index_from_char (name : String) (k : Kind) :
    ∀ (ds : List Device) (n i : Nat),
      device_index_from name k n ds = some i ↔
        (n ≤ i ∧ i - n < ds.length ∧
         devMatch name k (ds.getD (i - n) defaultDevice) = true ∧
         ∀ j, j < i - n → devMatch name k (ds.getD j defaultDevice) = false) := by
  intro ds
  induction ds with
  | nil =>
    intro n i
    constructor
    · intro he; simp [device_index_from] at he
    · rintro ⟨_, hlen, _, _⟩; simp at hlen
  | cons d ds ih =>
    intro n i
    rw [show device_index_from name k n (d :: ds) =
      (if devMatch name k d then some n else device_index_from name k (n+1) ds) from rfl]
    by_cases h : devMatch name k d = true
    · rw [if_pos h]
      constructor
      · intro he
        injection he with he
        subst he
        exact ⟨le_refl n, by simp, by simpa using h, fun j hj => by omega⟩
      · rintro ⟨hni, hlen, hget, hall⟩
        by_cases hin : i = n
        · subst hin; rfl
        · exfalso
          have h0 := hall 0 (by omega)
          simp at h0
          rw [h0] at h
          exact Bool.false_ne_true h
    · rw [if_neg h, ih (n+1) i]
      rw [Bool.not_eq_true] at h
      constructor
      · rintro ⟨hni, hlen, hget, hall⟩
        have hstep : i - n = (i - (n+1)) + 1 := by omega
        refine ⟨by omega, by simp only [List.length_cons]; omega, ?_, ?_⟩
        · rw [hstep]; simpa using hget
        · intro j hj
          cases j with
          | zero => simpa using h
          | succ j =>
            have := hall j (by omega)
            simpa using this
      · rintro ⟨hni, hlen, hget, hall⟩
        simp only [List.length_cons] at hlen
        have hne : i ≠ n := by
          intro he
          subst he
          simp at hget
          rw [hget] at h
          simp at h
        have hstep : i - n = (i - (n+1)) + 1 := by omega
        refine ⟨by omega, by omega, ?_, ?_⟩
        · rw [hstep] at hget; simpa using hget
        · intro j hj
          have := hall (j+1) (by omega)
          simpa using this

end Flx4

namespace Flx4

/-- The enumeration loop of `_device_index` returns `none` exactly when
no enumerated device passes the match test. -/
theorem device_index_from_none_char (name : String) (k : Kind) :
    ∀ (ds : List Device) (n : Nat),
      device_index_from name k n ds = none ↔
        ∀ d ∈ ds, devMatch name k d = false := by
  intro ds
  induction ds with
  | nil => intro n; simp [device_index_from]
  | cons d ds ih =>
    intro n
    rw [show device_index_from name k n (d :: ds) =
      (if devMatch name k d then some n else device_index_from name k (n+1) ds) from rfl]
    by_cases h : devMatch name k d = true
    · rw [if_pos h]
      simp [h]
    · rw [Bool.not_eq_true] at h
      rw [if_neg (by simp [h]), ih (n+1)]
      simp [h]

/-- C5 (amended): the empty configured name resolves directly to the
platform default; every nonempty configured name resolves to the first
enumerated device whose lowercased name contains the lowercased
configured name and which has the required capability, and to the
platform default exactly when no such device exists; the stream handle
is bound at start time to the names stored at that moment (so the
enumerated list consulted is the one existing when the stream starts,
not when the name was configured). -/
theorem c5_device_resolution :
    (∀ (k : Kind) (devs : List Device), device_index "" k devs = none) ∧
    (∀ (name : String) (k : Kind) (devs : List Device), name ≠ "" →
      ((∀ i : Nat, device_index name k devs = some i ↔
          (i < devs.length ∧ devMatch name k (devs.getD i defaultDevice) = true ∧
           ∀ j, j < i → devMatch name k (devs.getD j defaultDevice) = false)) ∧
       (device_index name k devs = none ↔ ∀ d ∈ devs, devMatch name k d = false))) ∧
    (∀ s : LoopState, (start_stream true s).stream = some (s.input_device, s.output_device)) := by
  refine ⟨?_, ?_, fun s => rfl⟩
  · intro k devs
    simp [device_index]
  · intro name k devs hname
    constructor
    · intro i
      rw [device_index, if_neg hname, device_index_from_char]
      simp
    · rw [device_index, if_neg hname, device_index_from_none_char]

/-- Counterexample for C5 as stated: the empty string is a possible
configured device name, every device name contains it as a substring,
and the first enumerated device here is input-capable — yet
`_device_index` returns `None` (platform default) rather than that first
matching device, because of its `if not name` guard. -/
theorem c5_counterexample :
    devMatch "" Kind.input
        { name := "Mic", max_input_channels := 2, max_output_channels := 0 } = true ∧
    device_index "" Kind.input
        [{ name := "Mic", max_input_channels := 2, max_output_channels := 0 }] = none := by
  exact ⟨by decide, by decide⟩

/-- Witness for the amended C5: the name "usb" on an input search skips
a non-matching output device and resolves to the first input-capable
device whose name contains "usb" case-insensitively. -/
theorem c5_device_resolution_witness :
    ("usb" : String) ≠ "" ∧
    device_index "usb" Kind.input
      [{ name := "HDMI Out", max_input_channels := 0, max_output_channels := 2 },
       { name := "USB Mic", max_input_channels := 2, max_output_channels := 0 },
       { name := "USB Mic 2", max_input_channels := 2, max_output_channels := 0 }] = some 1 := by
  refine ⟨by decide, ?_⟩
  refine ((c5_device_resolution.2.1 "usb" Kind.input _ (by decide)).1 1).mpr ?_
  refine ⟨by norm_num, by decide, ?_⟩
  intro j hj
  have hj0 : j = 0 := by omega
  subst hj0
  decide

/-- C2: the audio callback writes, into every channel of every output
frame, the mean of that frame's input channels scaled by the gain, where
the gain is 0 when muted and the stored monitor volume otherwise. -/
theorem c2_callback_downmix (m : Bool) (v : ℚ) (M : Nat) (indata : List (List ℚ))
    (i j : Nat) (hi : i < indata.length) (hj : j < M) :
    ((callback m v M indata).getD i []).getD j 0 =
      gain m v * frameMean (indata.getD i []) := by
  have hrow : (callback m v M indata).getD i [] =
      List.replicate M (frameMean (indata.getD i []) * gain m v) := by
    unfold callback
    rw [List.getD_eq_getElem?_getD, List.getD_eq_getElem?_getD, List.getElem?_map,
      List.getElem?_eq_getElem hi]
    simp
  rw [hrow, List.getD_eq_getElem?_getD, List.getElem?_replicate, if_pos hj]
  simp [mul_comm]

/-- Witness for C2: a 2-channel input frame `[1, 3]`, gain 1/2, output
channel 1 receives `(1/2) * mean [1, 3] = 1`. -/
theorem c2_callback_downmix_witness :
    0 < ([[(1:ℚ), 3]]).length ∧ 1 < 2 ∧
    ((callback false (1/2) 2 [[(1:ℚ), 3]]).getD 0 []).getD 1 0 =
      gain false (1/2) * frameMean ([[(1:ℚ), 3]].getD 0 []) :=
  ⟨by norm_num, by norm_num,
   c2_callback_downmix false (1/2) 2 [[(1:ℚ), 3]] 0 1 (by norm_num) (by norm_num)⟩

end Flx4

namespace Flx4

/-- Counterexample for C4 as stated: the callback reads `_muted` and
`_volume` as two separate unlocked attribute reads, so serialized
control calls may complete between them.  From the running state
(volume 1/2, unmuted), with the control thread executing
`set_muted(True)` then `set_monitor_volume(0.8)` between the two reads,
the callback computes gain 4/5 — yet every state of the history (which
is constant from instant 2 on) has gain 1/2 or 0, so the read pair is
consistent with no single instant of the read window: it is not a
single consistent snapshot. -/
theorem c4_counterexample :
    readGain runningS [Op.mute true true, Op.vol (4/5) true] 0 2 = 4/5 ∧
    gainState (stateAfter runningS [Op.mute true true, Op.vol (4/5) true] 0) = 1/2 ∧
    gainState (stateAfter runningS [Op.mute true true, Op.vol (4/5) true] 1) = 0 ∧
    gainState (stateAfter runningS [Op.mute true true, Op.vol (4/5) true] 2) = 0 ∧
    stateAfter runningS [Op.mute true true, Op.vol (4/5) true] 3 =
      stateAfter runningS [Op.mute true true, Op.vol (4/5) true] 2 ∧
    ((4:ℚ)/5 ≠ 1/2 ∧ (4:ℚ)/5 ≠ 0) := by
  have ha : set_muted true true runningS =
      { volume := 1/2, muted := true, input_device := none, output_device := none,
        stream := none, starts := 1, stops := 1 } := by
    show sync_stream true { runningS with muted := true } = _
    rw [sync_stream]
    norm_num [should_run, runningS, stop_stream]
  have hb : set_monitor_volume true ((4:ℚ)/5)
      { volume := 1/2, muted := true, input_device := none, output_device := none,
        stream := none, starts := 1, stops := 1 } =
      { volume := 4/5, muted := true, input_device := none, output_device := none,
        stream := none, starts := 1, stops := 1 } := by
    show sync_stream true _ = _
    have hv : max 0 (min 1 ((4:ℚ)/5)) = 4/5 := by norm_num
    rw [sync_stream]
    norm_num [hv, should_run, stop_stream]
  have e1 : stateAfter runningS [Op.mute true true, Op.vol (4/5) true] 1 =
      { volume := 1/2, muted := true, input_device := none, output_device := none,
        stream := none, starts := 1, stops := 1 } := ha
  have e2 : stateAfter runningS [Op.mute true true, Op.vol (4/5) true] 2 =
      { volume := 4/5, muted := true, input_device := none, output_device := none,
        stream := none, starts := 1, stops := 1 } := by
    show set_monitor_volume true ((4:ℚ)/5) (set_muted true true runningS) = _
    rw [ha, hb]
  have e3 : stateAfter runningS [Op.mute true true, Op.vol (4/5) true] 3 =
      stateAfter runningS [Op.mute true true, Op.vol (4/5) true] 2 := rfl
  refine ⟨?_, rfl, ?_, ?_, e3, by norm_num, by norm_num⟩
  · unfold readGain
    rw [e2]
    rfl
  · rw [e1]; rfl
  · rw [e2]; rfl

/-- C4 (amended): the callback never blocks on the control lock, but its
two reads are not one atomic snapshot; what does hold is that the
computed gain equals the gain of the single state at the volume-read
instant whenever the muted flag is unchanged between the two reads — in
particular whenever no control call intervenes. -/
theorem c4_snapshot (s : LoopState) (ops : List Op) (t1 t2 : Nat)
    (h : (stateAfter s ops t1).muted = (stateAfter s ops t2).muted) :
    readGain s ops t1 t2 = gainState (stateAfter s ops t2) := by
  unfold readGain gainState gain
  rw [h]

/-- Witness for the amended C4: one `set_monitor_volume(0.8)` between
the reads leaves the muted flag unchanged, so the read is consistent. -/
theorem c4_snapshot_witness :
    (stateAfter init [Op.vol (4/5) true] 0).muted =
      (stateAfter init [Op.vol (4/5) true] 1).muted ∧
    readGain init [Op.vol (4/5) true] 0 1 =
      gainState (stateAfter init [Op.vol (4/5) true] 1) := by
  have h : (stateAfter init [Op.vol (4/5) true] 0).muted =
      (stateAfter init [Op.vol (4/5) true] 1).muted := by
    show init.muted = (set_monitor_volume true ((4:ℚ)/5) init).muted
    rw [set_monitor_volume, sync_stream_muted]
  exact ⟨h, c4_snapshot init [Op.vol (4/5) true] 0 1 h⟩

end Flx4
